import Mathlib

/-!
Shallow embedding of the pubfisher scraping core:
`src/pubfisher/scrapers.py` (the `GScraper` state machine and the
`PublicationGScraper` page decoder) and `src/pubfisher/interactive.py`
(the `scrape_interactive` driving loop).

Modelling conventions:
* A parsed HTML page (`BeautifulSoup`) is abstracted to the features the
  core inspects: whether the captcha marker element is present, the list
  of result rows, and the optional relative next-page link.
* A result row is abstracted to whether `_publication_from_row` succeeds
  on it, and (if so) which record it produces (records are opaque `Nat`s).
* The network is an oracle `String → HttpResponse`; each response carries
  an HTTP status, a reason phrase, the parsed page, and the cookies the
  response sets into the session jar.
* A cookie jar is an association list of name/value pairs.
* Generators are modelled by functions returning the list of records
  yielded before termination plus the terminating fault, if any.
* `requests.Session.cookies` aliasing: `_create_http_session` runs
  `session.cookies = self.cookies` only when `self.cookies` is truthy
  (a non-empty jar), in which case the session mutates the scraper's own
  jar object in place; otherwise the session uses a fresh jar.  The model
  carries an explicit `aliased` flag to reproduce this.
-/

namespace Pubfisher

/-- A cookie jar: association list of cookie name/value pairs
(models `RequestsCookieJar`). -/
abbrev Jar := List (String × String)

/-- The list of cookie names in a jar (models `cookies.keys()`). -/
def Jar.keys (j : Jar) : List String := j.map Prod.fst

/-- Set one cookie in a jar, overwriting an existing cookie of the same
name (models how `requests` merges response cookies into the session jar). -/
def Jar.set (j : Jar) (name value : String) : Jar :=
  if j.any (fun p => p.1 = name)
  then j.map (fun p => if p.1 = name then (name, value) else p)
  else j ++ [(name, value)]

/-- Merge a list of response cookies into a jar, in order. -/
def Jar.setAll (j : Jar) (cs : List (String × String)) : Jar :=
  cs.foldl (fun acc c => Jar.set acc c.1 c.2) j

/-- One result row (`div.gs_or`) of a results page, abstracted to whether
`_publication_from_row` succeeds on it and which record it yields. -/
inductive Row where
  | ok (pub : Nat)
  | bad
deriving DecidableEq

/-- A parsed results page, abstracted to the features the core inspects:
the captcha marker (`_soup_contains_captcha`), the result rows
(`find_all('div', 'gs_or')`), and the optional relative href of the
next-page link (`gs_ico_nav_next`). -/
structure Soup where
  hasCaptcha : Bool
  rows : List Row
  nextRelUrl : Option String
deriving DecidableEq

/-- An HTTP response as seen by `_get_page` / the session: status code,
reason phrase, the parsed body, and the cookies the response sets. -/
structure HttpResponse where
  status : Nat
  reason : String
  soup : Soup
  setCookies : List (String × String)

/-- The mutable state of a `GScraper` instance: the fields set in
`GScraper.__init__` that the core protocol reads and writes. -/
structure ScraperState where
  host : String
  queryUrl : Option String
  nextUrl : Option String
  userAgent : Option String
  cookies : Option Jar
  newCookiesNeeded : Bool
deriving DecidableEq

/-- `GScraper.has_next_page`: the property reads `self._next_url is not None`. -/
def hasNextPage (st : ScraperState) : Bool := st.nextUrl.isSome

/-- `GScraper.__init__`: fresh scraper with no query issued. -/
def initScraper (host : String) (ua : Option String) (cookies : Option Jar) :
    ScraperState :=
  { host := host, queryUrl := none, nextUrl := none, userAgent := ua,
    cookies := cookies, newCookiesNeeded := false }

/-- `GScraper._absolute_from_relative_url`. -/
def absoluteFromRelativeUrl (st : ScraperState) (rel : String) : String :=
  st.host ++ rel ++ "&hl=en"

/-- `GScraper._find_next_url`: the absolute URL of the next results page,
or `none` when the page has no `gs_ico_nav_next` element. -/
def findNextUrl (st : ScraperState) (page : Soup) : Option String :=
  page.nextRelUrl.map (absoluteFromRelativeUrl st)

/-- `GScraper._set_query_url` plus the `notify('query-url')` handler
`_on_query_url_changed`: sets both URL fields and clears
`_new_cookies_needed`.  This is how a new query is issued
(`query_matches_of_key_words` / `query_citations_of_document_id`). -/
def setQueryUrl (st : ScraperState) (url : String) : ScraperState :=
  { st with queryUrl := some url, nextUrl := some url,
            newCookiesNeeded := false }

/-- The `GScraper.cookies` setter: clears `_new_cookies_needed` only when
it was set and the installed jar contains both GS session cookies
(`NID` and `GSP`); always installs the jar. -/
def setCookies (st : ScraperState) (jar : Jar) : ScraperState :=
  if st.newCookiesNeeded = true ∧ "NID" ∈ Jar.keys jar
      ∧ "GSP" ∈ Jar.keys jar then
    { st with newCookiesNeeded := false, cookies := some jar }
  else
    { st with cookies := some jar }

/-- The `GScraper.user_agent` setter: replaces the user agent only. -/
def setUserAgent (st : ScraperState) (ua : Option String) : ScraperState :=
  { st with userAgent := ua }

/-- The cause stored in a `ScrapeError`: either `CaptchaRequiredError`
(raised by `scrape_next_page` on a challenge page) or the exception a
result row raised during `_do_scrape`. -/
inductive Cause where
  | captchaRequired
  | decodeError
deriving DecidableEq

/-- `ScrapeError`: the typed failure carrying the cause, the failing URL,
the parsed page, the 0-based result offset, and the credentials in effect. -/
structure ScrapeError where
  cause : Cause
  continuationUrl : Option String
  failureSoup : Soup
  resultNo : Nat
  userAgent : Option String
  cookies : Jar
deriving DecidableEq

/-- All faults that can terminate an advance: the `StopIteration` raised
past exhaustion, the failed `assert not self.new_cookies_needed`, an
unwrapped `HTTPError` from `_get_page`, a `ScrapeError`, or the
`UserAbandonedCaptchaException` of the driver. -/
inductive Fault where
  | stopIteration
  | assertionError
  | httpError (code : Nat) (reason : String)
  | scrapeError (e : ScrapeError)
  | userAbandoned
deriving DecidableEq

/-- Whether a fault is one of the two precondition checks at the top of
`scrape_next_page` (advancing past exhaustion / credentials pending):
the spec's PreconditionViolation class. -/
def Fault.isPrecondViolation : Fault → Bool
  | .stopIteration => true
  | .assertionError => true
  | _ => false

/-- Whether a fault is a `ScrapeError` (the only fault class the driver
catches and retries). -/
def Fault.isScrapeError : Fault → Bool
  | .scrapeError _ => true
  | _ => false

/-- The row loop of `PublicationGScraper._do_scrape`, on the row list that
remains after `[start_at:]`, enumerating from `n`: yields records until a
row raises, then wraps the exception as a `ScrapeError` carrying
`self.query_url`, the page, the failing offset, the user agent, and the
session cookies. -/
def scrapeRows (queryUrl : Option String) (ua : Option String) (jar : Jar)
    (page : Soup) : List Row → Nat → List Nat × Option ScrapeError
  | [], _ => ([], none)
  | Row.ok pub :: rest, n =>
      let r := scrapeRows queryUrl ua jar page rest (n + 1)
      (pub :: r.1, r.2)
  | Row.bad :: _, n =>
      ([], some ⟨Cause.decodeError, queryUrl, page, n, ua, jar⟩)

/-- `PublicationGScraper._do_scrape`: decode the page from `startAt`,
returning the yielded records and the terminating `ScrapeError`, if any. -/
def doScrape (queryUrl : Option String) (ua : Option String) (jar : Jar)
    (page : Soup) (startAt : Nat) : List Nat × Option ScrapeError :=
  scrapeRows queryUrl ua jar page (page.rows.drop startAt) startAt

/-- The outcome of one `scrape_next_page` call, fully consumed: the
records yielded, the terminating fault (`none` on success), the scraper
state after the call, and the URLs fetched over the network. -/
structure AdvanceResult where
  records : List Nat
  fault : Option Fault
  st : ScraperState
  fetched : List String
deriving DecidableEq

/-- The body of `scrape_next_page` from the captcha check on, inside the
`_create_http_session` context manager: `jar` is the session jar at this
point, `aliased` records whether the session jar is the scraper's own jar
object.  On a challenge page, sets `_new_cookies_needed` and raises a
`ScrapeError` (exception path: the context manager captures the session
cookies).  Otherwise delegates to `_do_scrape`; a decode fault likewise
takes the exception path, while on full success the cursor is updated from
`_find_next_url` and the session exits normally (cookies persist only
through aliasing). -/
def processPage (st : ScraperState) (jar : Jar) (aliased : Bool)
    (page : Soup) (startAt : Nat) (fetched : List String) : AdvanceResult :=
  if page.hasCaptcha then
    let e : ScrapeError :=
      ⟨Cause.captchaRequired, st.nextUrl, page, 0, st.userAgent, jar⟩
    ⟨[], some (Fault.scrapeError e),
      { st with newCookiesNeeded := true, cookies := some jar }, fetched⟩
  else
    let r := doScrape st.queryUrl st.userAgent jar page startAt
    match r.2 with
    | some e =>
        ⟨r.1, some (Fault.scrapeError e),
          { st with cookies := some jar }, fetched⟩
    | none =>
        ⟨r.1, none,
          { st with nextUrl := findNextUrl st page,
                    cookies := if aliased then some jar else st.cookies },
          fetched⟩

/-- `GScraper.scrape_next_page(page_soup, start_at)`, fully consumed.
Order of checks mirrors the source: `StopIteration` when
`has_next_page` is false, then `assert not self.new_cookies_needed`;
then a session is opened (`_create_http_session`), the page is fetched
from `self.query_url` when no resume page is supplied (a non-200 status
raises `HTTPError`, taking the context manager's exception path which
captures the session cookies), and processing continues in
`processPage`. -/
def scrapeNextPage (http : String → HttpResponse) (st : ScraperState)
    (pageSoup : Option Soup) (startAt : Nat) : AdvanceResult :=
  if hasNextPage st = false then
    ⟨[], some Fault.stopIteration, st, []⟩
  else if st.newCookiesNeeded then
    ⟨[], some Fault.assertionError, st, []⟩
  else
    let jar0 : Jar := st.cookies.getD []
    let aliased : Bool := match st.cookies with
      | some j => !j.isEmpty
      | none => false
    match pageSoup with
    | some page => processPage st jar0 aliased page startAt []
    | none =>
        let url := st.queryUrl.getD ""
        let resp := http url
        let jar1 := Jar.setAll jar0 resp.setCookies
        if resp.status = 200 then
          processPage st jar1 aliased resp.soup startAt [url]
        else
          ⟨[], some (Fault.httpError resp.status resp.reason),
            { st with cookies := some jar1 }, [url]⟩

/-- An externally applied operation on a scraper, for stating which
transitions can touch the `new_cookies_needed` flag. -/
inductive Op where
  | installCookies (jar : Jar)
  | installUserAgent (ua : Option String)
  | issueQuery (url : String)
  | advance (http : String → HttpResponse) (pageSoup : Option Soup)
      (startAt : Nat)

/-- Apply an operation to a scraper state. -/
def Op.apply (st : ScraperState) : Op → ScraperState
  | .installCookies jar => setCookies st jar
  | .installUserAgent ua => setUserAgent st ua
  | .issueQuery url => setQueryUrl st url
  | .advance http pageSoup startAt =>
      (scrapeNextPage http st pageSoup startAt).st

/-- The driver's loop state in `scrape_interactive`: the scraper, the
`soup` variable holding the resume page, and the consecutive-failure
counter `retries`. -/
structure DriverState where
  scraper : ScraperState
  soup : Option Soup
  retries : Nat
deriving DecidableEq

/-- What the driver does after one loop iteration. -/
inductive StepNext where
  | cont (d : DriverState)
  | done
  | fatal (f : Fault)
deriving DecidableEq

/-- The observable effects of one loop iteration: records forwarded to the
caller (`yield from`), URLs fetched, whether `_sleep_between_requests`
ran, and how the loop continues. -/
structure StepOut where
  records : List Nat
  fetched : List String
  slept : Bool
  next : StepNext
deriving DecidableEq

/-- One iteration of the `while True` loop of `scrape_interactive`.
`solve` is the captcha-resolution contract `_solve_captcha`: given the
`ScrapeError`, it returns the unlocked page and refreshed cookies, or
`none` when the human abandoned the challenge.  Note the source calls
`scraper.scrape_next_page(soup)` — `start_at` is never passed, so every
attempt decodes from offset 0. -/
def driverStep (http : String → HttpResponse)
    (solve : ScrapeError → Option (Soup × Jar)) (maxRetries : Nat)
    (d : DriverState) : StepOut :=
  let r := scrapeNextPage http d.scraper d.soup 0
  match r.fault with
  | none =>
      if hasNextPage r.st then
        ⟨r.records, r.fetched, true, StepNext.cont ⟨r.st, none, 0⟩⟩
      else
        ⟨r.records, r.fetched, false, StepNext.done⟩
  | some (Fault.scrapeError e) =>
      let retries1 := d.retries + 1
      if maxRetries < retries1 then
        ⟨r.records, r.fetched, false, StepNext.fatal (Fault.scrapeError e)⟩
      else
        match e.cause with
        | Cause.captchaRequired =>
            match solve e with
            | none =>
                ⟨r.records, r.fetched, false, StepNext.fatal Fault.userAbandoned⟩
            | some su =>
                ⟨r.records, r.fetched, false,
                  StepNext.cont ⟨setCookies r.st su.2, some su.1, retries1⟩⟩
        | Cause.decodeError =>
            ⟨r.records, r.fetched, false,
              StepNext.cont ⟨r.st, some e.failureSoup, retries1⟩⟩
  | some f =>
      ⟨r.records, r.fetched, false, StepNext.fatal f⟩

/-- The result of running the driver loop for a bounded number of
iterations: the records streamed to the caller so far, the URLs fetched,
the number of pacing sleeps, and how the run ended. -/
inductive RunResult where
  | done (records : List Nat) (fetched : List String) (sleeps : Nat)
  | fatal (records : List Nat) (fetched : List String) (sleeps : Nat)
      (f : Fault)
  | outOfFuel (records : List Nat) (fetched : List String) (sleeps : Nat)
      (d : DriverState)
deriving DecidableEq

/-- The records streamed to the caller by a run. -/
def RunResult.records : RunResult → List Nat
  | .done recs _ _ => recs
  | .fatal recs _ _ _ => recs
  | .outOfFuel recs _ _ _ => recs

/-- Whether a run ended by propagating a fatal fault to the caller. -/
def RunResult.isFatal : RunResult → Bool
  | .fatal _ _ _ _ => true
  | _ => false

/-- Run the driver loop for at most `fuel` iterations, accumulating the
streamed records, fetched URLs, and sleep count. -/
def driverRun (http : String → HttpResponse)
    (solve : ScrapeError → Option (Soup × Jar)) (maxRetries : Nat) :
    Nat → DriverState → List Nat → List String → Nat → RunResult
  | 0, d, recs, fet, sl => RunResult.outOfFuel recs fet sl d
  | fuel + 1, d, recs, fet, sl =>
      let s := driverStep http solve maxRetries d
      let recs1 := recs ++ s.records
      let fet1 := fet ++ s.fetched
      let sl1 := sl + (if s.slept then 1 else 0)
      match s.next with
      | StepNext.cont d1 => driverRun http solve maxRetries fuel d1 recs1 fet1 sl1
      | StepNext.done => RunResult.done recs1 fet1 sl1
      | StepNext.fatal f => RunResult.fatal recs1 fet1 sl1 f

/-- `scrape_interactive(scraper, mean_delay, max_retries)`, run for at
most `fuel` loop iterations: starts with `soup = None` and `retries = 0`. -/
def scrapeInteractive (http : String → HttpResponse)
    (solve : ScrapeError → Option (Soup × Jar)) (maxRetries : Nat)
    (st : ScraperState) (fuel : Nat) : RunResult :=
  driverRun http solve maxRetries fuel ⟨st, none, 0⟩ [] [] 0

/-! Concrete fixtures for evaluating the model on specific scenarios. -/

/-- A captcha-resolution oracle where the human always abandons. -/
def solve0 : ScrapeError → Option (Soup × Jar) := fun _ => none

/-- A fresh scraper on host `h` with a query issued at URL `Q`. -/
def stQ : ScraperState := setQueryUrl (initScraper "h" none none) "Q"

/-- A scraper mid-query: the query started at `Q` but the cursor has
advanced, so the page to scrape next is at `N`. -/
def stC1 : ScraperState :=
  { host := "h", queryUrl := some "Q", nextUrl := some "N",
    userAgent := none, cookies := none, newCookiesNeeded := false }

/-- `stQ` with `new_cookies_needed` set (a challenge was detected). -/
def stBlocked : ScraperState := { stQ with newCookiesNeeded := true }

/-- `stBlocked` with the cursor exhausted as well. -/
def stBlockedNoNext : ScraperState := { stBlocked with nextUrl := none }

/-- A network where every URL yields an empty result page. -/
def httpEmpty : String → HttpResponse :=
  fun _ => ⟨200, "OK", ⟨false, [], none⟩, []⟩

/-- A page whose first row decodes to record 10 and whose second row
raises during decoding; no next-page link. -/
def soupC2 : Soup := ⟨false, [Row.ok 10, Row.bad], none⟩

/-- A network where every URL yields `soupC2`. -/
def httpC2 : String → HttpResponse := fun _ => ⟨200, "OK", soupC2, []⟩

/-- A network where every request fails with HTTP 503. -/
def httpC3 : String → HttpResponse :=
  fun _ => ⟨503, "Service Unavailable", ⟨false, [], none⟩, []⟩

/-- A network where every response sets cookie `FOO=1` and yields an
empty result page (decode succeeds). -/
def httpC7ok : String → HttpResponse :=
  fun _ => ⟨200, "OK", ⟨false, [], none⟩, [("FOO", "1")]⟩

/-- A network where every response sets cookie `FOO=1` and yields a page
whose single row raises during decoding. -/
def httpC7bad : String → HttpResponse :=
  fun _ => ⟨200, "OK", ⟨false, [Row.bad], none⟩, [("FOO", "1")]⟩

/-- `stQ` with a non-empty cookie jar installed, so the session jar is
the scraper's own jar object (the aliased case). -/
def stQA : ScraperState := { stQ with cookies := some [("A", "0")] }

/-- A page whose only row raises during decoding. -/
def soupC8 : Soup := ⟨false, [Row.bad], none⟩

/-- A network where every URL yields `soupC8`: every attempt fails. -/
def httpC8 : String → HttpResponse := fun _ => ⟨200, "OK", soupC8, []⟩

/-- A challenge page. -/
def capSoup : Soup := ⟨true, [], none⟩

/-- The unlocked results page behind the first challenge: one record and
a next-page link. -/
def unlocked1 : Soup := ⟨false, [Row.ok 1], some "/r"⟩

/-- The unlocked results page behind the second challenge: one record and
no next-page link. -/
def unlocked2 : Soup := ⟨false, [Row.ok 2], none⟩

/-- A jar containing both GS session cookies. -/
def jarK : Jar := [("NID", "n"), ("GSP", "g")]

/-- A network where every fetch is met by the challenge page. -/
def httpCap : String → HttpResponse := fun _ => ⟨200, "OK", capSoup, []⟩

/-- A captcha-resolution oracle that unlocks each challenge: the first
(failing at the query URL) yields `unlocked1`, later ones `unlocked2`,
always returning a jar with both session cookies. -/
def solveCap : ScrapeError → Option (Soup × Jar) :=
  fun e => if e.continuationUrl = some "Q" then some (unlocked1, jarK)
           else some (unlocked2, jarK)

/-- A network where every URL yields a page with one record and a
next-page link. -/
def http9 : String → HttpResponse :=
  fun _ => ⟨200, "OK", ⟨false, [Row.ok 3], some "/n"⟩, []⟩

/-! Helper lemmas shared by the claim theorems. -/

/-- With the credentials flag set, `scrape_next_page` stops at one of the
two precondition checks and leaves the state untouched. -/
theorem scrapeNextPage_of_newCookiesNeeded (http : String → HttpResponse)
    (st : ScraperState) (pageSoup : Option Soup) (startAt : Nat)
    (h : st.newCookiesNeeded = true) :
    scrapeNextPage http st pageSoup startAt =
      if hasNextPage st = false then ⟨[], some Fault.stopIteration, st, []⟩
      else ⟨[], some Fault.assertionError, st, []⟩ := by
  unfold scrapeNextPage
  by_cases hn : hasNextPage st = false <;> simp [hn, h]

/-- `processPage` changes the next-page URL only on full successful
decode: every fault outcome preserves it. -/
theorem processPage_fault_preserves_nextUrl (st : ScraperState) (jar : Jar)
    (aliased : Bool) (page : Soup) (startAt : Nat) (fetched : List String) :
    (processPage st jar aliased page startAt fetched).fault = none ∨
    (processPage st jar aliased page startAt fetched).st.nextUrl =
      st.nextUrl := by
  unfold processPage
  by_cases hc : page.hasCaptcha = true
  · simp [hc]
  · simp only [hc, if_false, Bool.false_eq_true]
    rcases h : (doScrape st.queryUrl st.userAgent jar page startAt).2 with _ | e
    · simp [h]
    · simp [h]

/-- Every advance that terminates with a fault leaves the next-page URL
exactly as it was; only a full successful decode changes it. -/
theorem advance_fault_preserves_nextUrl (http : String → HttpResponse)
    (st : ScraperState) (pageSoup : Option Soup) (startAt : Nat) :
    (scrapeNextPage http st pageSoup startAt).fault = none ∨
    (scrapeNextPage http st pageSoup startAt).st.nextUrl = st.nextUrl := by
  unfold scrapeNextPage
  by_cases h1 : hasNextPage st = false
  · simp [h1]
  · by_cases h2 : st.newCookiesNeeded = true
    · simp [h1, h2]
    · simp only [h1, h2, if_false, Bool.false_eq_true]
      cases pageSoup with
      | some page =>
          exact processPage_fault_preserves_nextUrl st _ _ page startAt []
      | none =>
          by_cases hs : (http (st.queryUrl.getD "")).status = 200
          · simp only [hs, if_true]
            exact processPage_fault_preserves_nextUrl st _ _ _ startAt _
          · simp [hs]

/-- Decoding a row list in which every row succeeds yields exactly the
records of those rows, with no fault. -/
theorem scrapeRows_all_ok (qu ua : Option String) (jar : Jar) (page : Soup)
    (pubs : List Nat) (n : Nat) :
    scrapeRows qu ua jar page (pubs.map Row.ok) n = (pubs, none) := by
  induction pubs generalizing n with
  | nil => rfl
  | cons p ps ih => simp [scrapeRows, ih]

/-! Claim theorems. -/

/-- C4: whenever NeedsNewCredentials is true, `advance_page` raises a
precondition-violation fault immediately — regardless of the Cursor —
fetching nothing, yielding no record, leaving the state unchanged, and
the fault is not a retryable ScrapeFailure. -/
theorem c4_credential_gating (http : String → HttpResponse)
    (st : ScraperState) (pageSoup : Option Soup) (startAt : Nat)
    (h : st.newCookiesNeeded = true) :
    (scrapeNextPage http st pageSoup startAt).records = [] ∧
    (scrapeNextPage http st pageSoup startAt).fetched = [] ∧
    (scrapeNextPage http st pageSoup startAt).st = st ∧
    ((scrapeNextPage http st pageSoup startAt).fault =
        some Fault.stopIteration ∨
      (scrapeNextPage http st pageSoup startAt).fault =
        some Fault.assertionError) ∧
    (scrapeNextPage http st pageSoup startAt).fault.map
      Fault.isPrecondViolation = some true ∧
    (scrapeNextPage http st pageSoup startAt).fault.map
      Fault.isScrapeError = some false := by
  rw [scrapeNextPage_of_newCookiesNeeded http st pageSoup startAt h]
  by_cases hn : hasNextPage st = false <;>
    simp [hn, Fault.isPrecondViolation, Fault.isScrapeError]

/-- Witness for C4 at two concrete blocked states: one with a next page
pending, one exhausted. -/
theorem c4_credential_gating_witness :
    ((scrapeNextPage httpEmpty stBlocked none 0).fetched = [] ∧
      (scrapeNextPage httpEmpty stBlocked none 0).fault.map
        Fault.isPrecondViolation = some true) ∧
    ((scrapeNextPage httpEmpty stBlockedNoNext none 0).fetched = [] ∧
      (scrapeNextPage httpEmpty stBlockedNoNext none 0).fault.map
        Fault.isPrecondViolation = some true) :=
  ⟨⟨(c4_credential_gating httpEmpty stBlocked none 0 rfl).2.1,
    (c4_credential_gating httpEmpty stBlocked none 0 rfl).2.2.2.2.1⟩,
   ⟨(c4_credential_gating httpEmpty stBlockedNoNext none 0 rfl).2.1,
    (c4_credential_gating httpEmpty stBlockedNoNext none 0 rfl).2.2.2.2.1⟩⟩

/-- C10: if the decoder raises while decoding any record of a page, the
advance aborts before the cursor update, so the next-page URL and the
has-next-page flag are exactly what they were before the advance began. -/
theorem c10_decode_fault_preserves_cursor (http : String → HttpResponse)
    (st : ScraperState) (pageSoup : Option Soup) (startAt : Nat)
    (e : ScrapeError)
    (h : (scrapeNextPage http st pageSoup startAt).fault =
      some (Fault.scrapeError e))
    (_hc : e.cause = Cause.decodeError) :
    (scrapeNextPage http st pageSoup startAt).st.nextUrl = st.nextUrl ∧
    hasNextPage (scrapeNextPage http st pageSoup startAt).st =
      hasNextPage st := by
  rcases advance_fault_preserves_nextUrl http st pageSoup startAt with h0 | h0
  · rw [h] at h0; cases h0
  · exact ⟨h0, by unfold hasNextPage; rw [h0]⟩

/-- Witness for C10: a page whose second row fails to decode leaves the
cursor at `Q`. -/
theorem c10_decode_fault_preserves_cursor_witness :
    (scrapeNextPage httpC2 stQ none 0).st.nextUrl = stQ.nextUrl ∧
    hasNextPage (scrapeNextPage httpC2 stQ none 0).st = hasNextPage stQ :=
  c10_decode_fault_preserves_cursor httpC2 stQ none 0
    ⟨Cause.decodeError, some "Q", soupC2, 1, none, []⟩ (by decide) rfl

/-- C6: the NeedsNewCredentials flag becomes false only by installing a
cookie jar containing both session cookies (`NID` and `GSP`) or by
issuing a new query; installing a jar lacking either session cookie
while the flag is set leaves it set. -/
theorem c6_flag_cleared_only_by_cookies_or_query :
    (∀ (op : Op) (st : ScraperState), st.newCookiesNeeded = true →
      (Op.apply st op).newCookiesNeeded = false →
      (∃ jar, op = Op.installCookies jar ∧
        "NID" ∈ Jar.keys jar ∧ "GSP" ∈ Jar.keys jar) ∨
      (∃ url, op = Op.issueQuery url)) ∧
    (∀ (st : ScraperState) (jar : Jar), st.newCookiesNeeded = true →
      ¬("NID" ∈ Jar.keys jar ∧ "GSP" ∈ Jar.keys jar) →
      (setCookies st jar).newCookiesNeeded = true) := by
  constructor
  · intro op st h h2
    cases op with
    | installCookies jar =>
        left
        refine ⟨jar, rfl, ?_⟩
        unfold Op.apply setCookies at h2
        by_cases hk : "NID" ∈ Jar.keys jar ∧ "GSP" ∈ Jar.keys jar
        · exact hk
        · simp [h, hk] at h2
    | installUserAgent ua =>
        exact absurd h2 (by unfold Op.apply setUserAgent; simp [h])
    | issueQuery url => exact Or.inr ⟨url, rfl⟩
    | advance http pageSoup startAt =>
        exfalso
        rw [Op.apply,
          scrapeNextPage_of_newCookiesNeeded http st pageSoup startAt h] at h2
        by_cases hn : hasNextPage st = false <;> simp [hn, h] at h2
  · intro st jar h hk
    unfold setCookies
    simp [h, hk]

/-- Witness for C6: issuing a query clears the flag (first part applied
to a blocked scraper), and installing a jar holding only `NID` leaves the
flag set (second part). -/
theorem c6_flag_cleared_only_by_cookies_or_query_witness :
    ((∃ jar, Op.issueQuery "u" = Op.installCookies jar ∧
        "NID" ∈ Jar.keys jar ∧ "GSP" ∈ Jar.keys jar) ∨
      (∃ url, Op.issueQuery "u" = Op.issueQuery url)) ∧
    (setCookies stBlocked [("NID", "n")]).newCookiesNeeded = true :=
  ⟨c6_flag_cleared_only_by_cookies_or_query.1 (Op.issueQuery "u") stBlocked
      rfl rfl,
    c6_flag_cleared_only_by_cookies_or_query.2 stBlocked [("NID", "n")]
      rfl (by decide)⟩

/-- C1 (code bug): with the query started at `Q` and the cursor advanced
to `N`, an advance with `resume_page` omitted fetches `Q` — the code
passes `self.query_url` to `_get_soup_from_url`, not `self.next_url` —
so the page at the current next-page URL is never requested.  The general
conjunct shows every fetch of `scrape_next_page` goes to the query URL. -/
theorem c1_resume_omitted_fetches_query_url :
    (scrapeNextPage httpEmpty stC1 none 0).fetched = ["Q"] ∧
    stC1.nextUrl = some "N" ∧
    "N" ∉ (scrapeNextPage httpEmpty stC1 none 0).fetched ∧
    (∀ (http : String → HttpResponse) (st : ScraperState) (startAt : Nat),
      (scrapeNextPage http st none startAt).fetched = [] ∨
      (scrapeNextPage http st none startAt).fetched =
        [st.queryUrl.getD ""]) := by
  refine ⟨by decide, rfl, by decide, ?_⟩
  intro http st startAt
  unfold scrapeNextPage
  by_cases h1 : hasNextPage st = false
  · simp [h1]
  · by_cases h2 : st.newCookiesNeeded = true
    · simp [h1, h2]
    · simp only [h1, h2, if_false, Bool.false_eq_true]
      by_cases hs : (http (st.queryUrl.getD "")).status = 200
      · simp only [hs, if_true]
        unfold processPage
        by_cases hc : (http (st.queryUrl.getD "")).soup.hasCaptcha = true
        · simp [hc]
        · simp only [hc, if_false, Bool.false_eq_true]
          rcases h : (doScrape st.queryUrl st.userAgent
              (Jar.setAll (st.cookies.getD [])
                (http (st.queryUrl.getD "")).setCookies)
              (http (st.queryUrl.getD "")).soup startAt).2 with _ | e
          · simp [h]
          · simp [h]
      · simp [hs]

/-- C2 (code bug): decoding `soupC2` fails at offset 1 after yielding
record 10, and the driver's retry — `scrape_next_page(e.failure_soup)`
with no `start_at` argument — restarts at offset 0, so the caller
receives record 10 twice. -/
theorem c2_driver_retry_restarts_at_offset_zero :
    (scrapeNextPage httpC2 stQ none 0).records = [10] ∧
    (scrapeNextPage httpC2 stQ none 0).fault =
      some (Fault.scrapeError
        ⟨Cause.decodeError, some "Q", soupC2, 1, none, []⟩) ∧
    (scrapeInteractive httpC2 solve0 3 stQ 2).records = [10, 10] := by
  decide

/-- C3 counterexample: a 503 during the fetch of `advance_page` surfaces
as a bare `HTTPError`, not a ScrapeFailure, and the driver — whose retry
logic catches only `ScrapeError` — propagates it fatally on the first
failure even with a retry budget of 5. -/
theorem c3_counterexample_fetch_fault_unwrapped :
    (scrapeNextPage httpC3 stQ none 0).fault =
      some (Fault.httpError 503 "Service Unavailable") ∧
    (scrapeNextPage httpC3 stQ none 0).fault.map Fault.isScrapeError =
      some false ∧
    scrapeInteractive httpC3 solve0 5 stQ 3 =
      RunResult.fatal [] ["Q"] 0
        (Fault.httpError 503 "Service Unavailable") := by
  decide

/-- C3 amended: a fetch fault (non-200 status) during `advance_page`
propagates unwrapped as an `HTTPError` carrying the status code and
reason; it is not a ScrapeFailure, the session cookies are still captured
on the way out, the cursor is unchanged, and the Driver does not catch it
— it crosses to the caller immediately without counting against the
retry budget. -/
theorem c3_fetch_fault_propagates_unwrapped (http : String → HttpResponse)
    (st : ScraperState) (startAt k m : Nat)
    (solve : ScrapeError → Option (Soup × Jar))
    (h1 : hasNextPage st = true) (h2 : st.newCookiesNeeded = false)
    (h3 : ¬(http (st.queryUrl.getD "")).status = 200) :
    (scrapeNextPage http st none startAt).records = [] ∧
    (scrapeNextPage http st none startAt).fault =
      some (Fault.httpError (http (st.queryUrl.getD "")).status
        (http (st.queryUrl.getD "")).reason) ∧
    (scrapeNextPage http st none startAt).fault.map Fault.isScrapeError =
      some false ∧
    (scrapeNextPage http st none startAt).st.nextUrl = st.nextUrl ∧
    (scrapeNextPage http st none startAt).st.cookies =
      some (Jar.setAll (st.cookies.getD [])
        (http (st.queryUrl.getD "")).setCookies) ∧
    (driverStep http solve m ⟨st, none, k⟩).next =
      StepNext.fatal (Fault.httpError (http (st.queryUrl.getD "")).status
        (http (st.queryUrl.getD "")).reason) := by
  have key : ∀ sa : Nat, scrapeNextPage http st none sa =
      ⟨[], some (Fault.httpError (http (st.queryUrl.getD "")).status
          (http (st.queryUrl.getD "")).reason),
        { st with cookies := some (Jar.setAll (st.cookies.getD [])
            (http (st.queryUrl.getD "")).setCookies) },
        [st.queryUrl.getD ""]⟩ := by
    intro sa
    unfold scrapeNextPage
    simp [h1, h2, h3]
  refine ⟨?_, ?_, ?_, ?_, ?_, ?_⟩
  · rw [key]
  · rw [key]
  · rw [key]; rfl
  · rw [key]
  · rw [key]
  · unfold driverStep
    rw [key 0]

/-- Witness for C3 amended, at the 503 network and the freshly queried
scraper: the `HTTPError` fault and the driver's immediate fatal
propagation. -/
theorem c3_fetch_fault_propagates_unwrapped_witness :
    (scrapeNextPage httpC3 stQ none 0).fault =
      some (Fault.httpError 503 "Service Unavailable") ∧
    (driverStep httpC3 solve0 5 ⟨stQ, none, 0⟩).next =
      StepNext.fatal (Fault.httpError 503 "Service Unavailable") :=
  ⟨(c3_fetch_fault_propagates_unwrapped httpC3 stQ 0 0 5 solve0 rfl rfl
      (by decide)).2.1,
   (c3_fetch_fault_propagates_unwrapped httpC3 stQ 0 0 5 solve0 rfl rfl
      (by decide)).2.2.2.2.2⟩

/-- C5: a challenge page — supplied as the resume page or just fetched —
makes `advance_page` set NeedsNewCredentials, raise a ScrapeFailure
carrying the challenge page, offset 0, the user agent and session
cookies, with cause CaptchaRequired, while the next-page URL and
has-next-page flag are left unchanged. -/
theorem c5_challenge_sets_flag_and_preserves_cursor :
    (∀ (http : String → HttpResponse) (st : ScraperState) (page : Soup)
        (startAt : Nat),
      hasNextPage st = true → st.newCookiesNeeded = false →
      page.hasCaptcha = true →
      (scrapeNextPage http st (some page) startAt).records = [] ∧
      (scrapeNextPage http st (some page) startAt).fault =
        some (Fault.scrapeError ⟨Cause.captchaRequired, st.nextUrl, page, 0,
          st.userAgent, st.cookies.getD []⟩) ∧
      (scrapeNextPage http st (some page) startAt).st.newCookiesNeeded
        = true ∧
      (scrapeNextPage http st (some page) startAt).st.nextUrl =
        st.nextUrl ∧
      hasNextPage (scrapeNextPage http st (some page) startAt).st =
        hasNextPage st) ∧
    (∀ (http : String → HttpResponse) (st : ScraperState) (startAt : Nat),
      hasNextPage st = true → st.newCookiesNeeded = false →
      (http (st.queryUrl.getD "")).status = 200 →
      (http (st.queryUrl.getD "")).soup.hasCaptcha = true →
      (scrapeNextPage http st none startAt).records = [] ∧
      (scrapeNextPage http st none startAt).fault =
        some (Fault.scrapeError ⟨Cause.captchaRequired, st.nextUrl,
          (http (st.queryUrl.getD "")).soup, 0, st.userAgent,
          Jar.setAll (st.cookies.getD [])
            (http (st.queryUrl.getD "")).setCookies⟩) ∧
      (scrapeNextPage http st none startAt).st.newCookiesNeeded = true ∧
      (scrapeNextPage http st none startAt).st.nextUrl = st.nextUrl ∧
      hasNextPage (scrapeNextPage http st none startAt).st =
        hasNextPage st) := by
  constructor
  · intro http st page startAt h1 h2 hc
    have key : scrapeNextPage http st (some page) startAt =
        ⟨[], some (Fault.scrapeError ⟨Cause.captchaRequired, st.nextUrl,
            page, 0, st.userAgent, st.cookies.getD []⟩),
          { st with newCookiesNeeded := true,
                    cookies := some (st.cookies.getD []) }, []⟩ := by
      unfold scrapeNextPage processPage
      simp [h1, h2, hc]
    simp [key, hasNextPage]
  · intro http st startAt h1 h2 hs hc
    have key : scrapeNextPage http st none startAt =
        ⟨[], some (Fault.scrapeError ⟨Cause.captchaRequired, st.nextUrl,
            (http (st.queryUrl.getD "")).soup, 0, st.userAgent,
            Jar.setAll (st.cookies.getD [])
              (http (st.queryUrl.getD "")).setCookies⟩),
          { st with newCookiesNeeded := true,
                    cookies := some (Jar.setAll (st.cookies.getD [])
                      (http (st.queryUrl.getD "")).setCookies) },
          [st.queryUrl.getD ""]⟩ := by
      unfold scrapeNextPage processPage
      simp [h1, h2, hs, hc]
    simp [key, hasNextPage]

/-- Witness for C5: the challenge page supplied as resume page, and the
challenge page fetched from the network, both at the freshly queried
scraper. -/
theorem c5_challenge_sets_flag_and_preserves_cursor_witness :
    ((scrapeNextPage httpEmpty stQ (some capSoup) 0).st.newCookiesNeeded
        = true ∧
      (scrapeNextPage httpEmpty stQ (some capSoup) 0).st.nextUrl =
        stQ.nextUrl) ∧
    ((scrapeNextPage httpCap stQ none 0).fault =
        some (Fault.scrapeError ⟨Cause.captchaRequired, stQ.nextUrl,
          capSoup, 0, none, []⟩) ∧
      (scrapeNextPage httpCap stQ none 0).st.nextUrl = stQ.nextUrl) :=
  ⟨⟨(c5_challenge_sets_flag_and_preserves_cursor.1 httpEmpty stQ capSoup 0
        rfl rfl rfl).2.2.1,
    (c5_challenge_sets_flag_and_preserves_cursor.1 httpEmpty stQ capSoup 0
        rfl rfl rfl).2.2.2.1⟩,
   ⟨(c5_challenge_sets_flag_and_preserves_cursor.2 httpCap stQ 0
        rfl rfl rfl rfl).2.1,
    (c5_challenge_sets_flag_and_preserves_cursor.2 httpCap stQ 0
        rfl rfl rfl rfl).2.2.2.1⟩⟩

/-- C7 (code bug): the session's accumulated cookies are captured into
the scraper only on the exception path of `_create_http_session`.  With
no initial jar, a successful advance whose response set cookie `FOO=1`
leaves the scraper's credentials empty; the same response on a failing
decode stores them; with a non-empty initial jar the refresh survives
only because the session mutates the scraper's own jar object. -/
theorem c7_cookies_captured_only_on_exception :
    (scrapeNextPage httpC7ok stQ none 0).fault = none ∧
    (scrapeNextPage httpC7ok stQ none 0).st.cookies = none ∧
    (scrapeNextPage httpC7bad stQ none 0).fault.map Fault.isScrapeError =
      some true ∧
    (scrapeNextPage httpC7bad stQ none 0).st.cookies =
      some [("FOO", "1")] ∧
    (scrapeNextPage httpC7ok stQA none 0).st.cookies =
      some [("A", "0"), ("FOO", "1")] := by
  decide

/-- C8: with `max_retries = 2`, three consecutive ScrapeFailures make the
driver propagate the last failure exactly after the third failure (fatal
at three loop iterations, still running after two); a run with failures
separated by successes finishes even with `max_retries = 1`; and in
general every successful advance resets the consecutive-failure counter
to zero. -/
theorem c8_retry_budget_and_counter_reset :
    scrapeInteractive httpC8 solve0 2 stQ 3 =
      RunResult.fatal [] ["Q"] 0 (Fault.scrapeError
        ⟨Cause.decodeError, some "Q", soupC8, 0, none, []⟩) ∧
    (scrapeInteractive httpC8 solve0 2 stQ 2).isFatal = false ∧
    scrapeInteractive httpCap solveCap 1 stQ 4 =
      RunResult.done [1, 2] ["Q", "Q"] 1 ∧
    (∀ (http : String → HttpResponse)
        (solve : ScrapeError → Option (Soup × Jar)) (m : Nat)
        (d : DriverState),
      (scrapeNextPage http d.scraper d.soup 0).fault = none →
      hasNextPage (scrapeNextPage http d.scraper d.soup 0).st = true →
      (driverStep http solve m d).next =
        StepNext.cont
          ⟨(scrapeNextPage http d.scraper d.soup 0).st, none, 0⟩) := by
  refine ⟨by decide, by decide, by decide, ?_⟩
  intro http solve m d hf hn
  unfold driverStep
  simp [hf, hn]

/-- Witness for C8's general conjunct: a successful advance at
consecutive-failure count 5 continues with the counter reset to 0. -/
theorem c8_retry_budget_and_counter_reset_witness :
    (driverStep http9 solve0 7 ⟨stQ, none, 5⟩).next =
      StepNext.cont ⟨(scrapeNextPage http9 stQ none 0).st, none, 0⟩ :=
  c8_retry_budget_and_counter_reset.2.2.2 http9 solve0 7 ⟨stQ, none, 5⟩
    (by decide) (by decide)

/-- C9: when no page ever carries a next-page link, the driver terminates
normally after processing exactly one page — one fetch, no pacing sleep —
regardless of the number of records on that page (including zero) and of
the remaining fuel and retry budget. -/
theorem c9_no_next_link_terminates_after_one_page (m fuel : Nat)
    (pubs : List Nat) :
    scrapeInteractive
      (fun _ => ⟨200, "OK", ⟨false, pubs.map Row.ok, none⟩, []⟩)
      solve0 m stQ (fuel + 1) = RunResult.done pubs ["Q"] 0 := by
  unfold scrapeInteractive driverRun driverStep scrapeNextPage processPage
    doScrape
  simp [scrapeRows_all_ok, stQ, setQueryUrl, initScraper, hasNextPage,
    findNextUrl]

end Pubfisher
